import Mathlib

/-!
Verification of the terminal backend adapter (`src/backend/terminal.rs`).

The Rust unit is shallowly embedded: the pure mapping functions
(`From<TKeyCode> for Key`, `From<TKeyEvent> for Event`,
`From<theme::Color> for TColor`, `From<TMouseButton> for MouseButton`)
become Lean functions; the stateful `Backend` methods become functions
over an explicit `BackendState`, returning the list of driver actions
they issue; a panicking `unwrap` becomes an `Option`/flag result.
-/

set_option autoImplicit false

namespace Cursive

/-! ### Abstract (toolkit) color model, from `cursive::theme` -/

/-- The eight named base hues of the toolkit's palette. -/
inductive BaseColor where
  | Black | Red | Green | Yellow | Blue | Magenta | Cyan | White
deriving DecidableEq, Repr

/-- Abstract toolkit color: `theme::Color`. `Rgb`/`RgbLowRes` components are
`u8` values, embedded as `Nat`. -/
inductive Color where
  | Dark (c : BaseColor)
  | Light (c : BaseColor)
  | Rgb (r g b : Nat)
  | RgbLowRes (r g b : Nat)
  | TerminalDefault
deriving DecidableEq, Repr

/-- `theme::ColorPair`: a foreground/background pair. -/
structure ColorPair where
  front : Color
  back : Color
deriving DecidableEq, Repr

/-! ### Driver-side types, from the `terminal` crate -/

/-- `terminal::Color` (`TColor` in the source's imports). -/
inductive TColor where
  | Black | DarkRed | DarkGreen | DarkYellow | DarkBlue | DarkMagenta | DarkCyan
  | Grey | Red | Green | Yellow | Blue | Magenta | Cyan | White
  | Rgb (r g b : Nat)
  | AnsiValue (n : Nat)
  | Reset
deriving DecidableEq, Repr

/-- `terminal::KeyCode` (`TKeyCode`). -/
inductive TKeyCode where
  | Esc | Backspace | Left | Right | Up | Down | Home | End
  | PageUp | PageDown | Delete | Insert | Enter | Tab
  | F (n : Nat)
  | BackTab
  | Char (c : Char)
  | Null
deriving DecidableEq, Repr

/-- `terminal::KeyModifiers` (`TKeyModifiers`): a bitflags set with the
SHIFT, CONTROL and ALT bits, embedded as one Bool per bit. Rust's constant
patterns on a bitflags value match exactly that bit combination. -/
structure TKeyModifiers where
  shift : Bool
  control : Bool
  alt : Bool
deriving DecidableEq, Repr

/-- The empty modifier set. -/
def TKeyModifiers.NONE : TKeyModifiers := ⟨false, false, false⟩

/-- Exactly the SHIFT bit. -/
def TKeyModifiers.SHIFT : TKeyModifiers := ⟨true, false, false⟩

/-- Exactly the CONTROL bit. -/
def TKeyModifiers.CONTROL : TKeyModifiers := ⟨false, true, false⟩

/-- Exactly the ALT bit. -/
def TKeyModifiers.ALT : TKeyModifiers := ⟨false, false, true⟩

/-- The `CTRL_ALT` constant of the source: CONTROL and ALT bits. -/
def TKeyModifiers.CTRL_ALT : TKeyModifiers := ⟨false, true, true⟩

/-- The `CTRL_SHIFT` constant of the source: CONTROL and SHIFT bits. -/
def TKeyModifiers.CTRL_SHIFT : TKeyModifiers := ⟨true, true, false⟩

/-- The `ALT_SHIFT` constant of the source: ALT and SHIFT bits. -/
def TKeyModifiers.ALT_SHIFT : TKeyModifiers := ⟨true, false, true⟩

/-- `terminal::KeyEvent` (`TKeyEvent`): a modifier set plus a key code. -/
structure TKeyEvent where
  modifiers : TKeyModifiers
  code : TKeyCode
deriving DecidableEq, Repr

/-- `terminal::MouseButton` (`TMouseButton`). -/
inductive TMouseButton where
  | Left | Right | Middle | Unknown
deriving DecidableEq, Repr

/-- `terminal::MouseEvent` (`TMouseEvent`); coordinates are `u16`,
embedded as `Nat`; the trailing modifier field is ignored by the source. -/
inductive TMouseEvent where
  | Down (button : TMouseButton) (x y : Nat) (m : TKeyModifiers)
  | Up (button : TMouseButton) (x y : Nat) (m : TKeyModifiers)
  | Drag (button : TMouseButton) (x y : Nat) (m : TKeyModifiers)
  | ScrollDown (x y : Nat) (m : TKeyModifiers)
  | ScrollUp (x y : Nat) (m : TKeyModifiers)
deriving DecidableEq, Repr

/-- `terminal::Event` (`TEvent`): the raw driver event. -/
inductive TEvent where
  | Key (k : TKeyEvent)
  | Mouse (m : TMouseEvent)
  | Resize
  | Unknown
deriving DecidableEq, Repr

/-! ### Toolkit event vocabulary, from `cursive::event` -/

/-- `cursive::event::Key`: the closed non-character key-symbol set. -/
inductive Key where
  | Esc | Backspace | Left | Right | Up | Down | Home | End
  | PageUp | PageDown | Del | Ins | Enter | Tab
  | F (n : Nat)
deriving DecidableEq, Repr

/-- Modelled from the spec: `Key::from_f(n)` turns a function-key index into
the `F(n)` key symbol (spec 4.2: "function-key index → F(n)"); the function
itself lives in the toolkit's event module, outside this unit. -/
def Key.from_f (n : Nat) : Key := Key.F n

/-- `cursive::event::MouseButton`. -/
inductive MouseButton where
  | Left | Right | Middle | Other
deriving DecidableEq, Repr

/-- `cursive::event::MouseEvent`: the normalized mouse event vocabulary of
the toolkit (the `WheelUp` variant exists in the vocabulary; whether the
mapper ever produces it is claim C8). -/
inductive MouseEvent where
  | Press (b : MouseButton)
  | Release (b : MouseButton)
  | Hold (b : MouseButton)
  | WheelUp
  | WheelDown
deriving DecidableEq, Repr

/-- `cursive::event::Event`: the normalized toolkit event. `Mouse` carries
the position and offset as (x, y) pairs (`Vec2` in the source). -/
inductive Event where
  | Char (c : Char)
  | CtrlChar (c : Char)
  | AltChar (c : Char)
  | Key (k : Key)
  | Ctrl (k : Key)
  | Alt (k : Key)
  | Shift (k : Key)
  | CtrlAlt (k : Key)
  | CtrlShift (k : Key)
  | AltShift (k : Key)
  | Mouse (event : MouseEvent) (position : Nat × Nat) (offset : Nat × Nat)
  | WindowResize
  | Exit
  | Unknown (bytes : List Nat)
deriving DecidableEq, Repr

/-! ### The pure mappers (`impl From<...>` blocks of the source) -/

/-- `impl From<TMouseButton> for MouseButton` (terminal.rs lines 20-29). -/
def MouseButton.fromTMouseButton : TMouseButton → MouseButton
  | TMouseButton.Left => MouseButton.Left
  | TMouseButton.Right => MouseButton.Right
  | TMouseButton.Middle => MouseButton.Middle
  | TMouseButton.Unknown => MouseButton.Other

/-- `impl From<TKeyCode> for Key` (terminal.rs lines 31-54): the fixed
symbol table; `BackTab`, `Char(_)` and `Null` fall back to `Tab`. -/
def Key.fromTKeyCode : TKeyCode → Key
  | TKeyCode.Esc => Key.Esc
  | TKeyCode.Backspace => Key.Backspace
  | TKeyCode.Left => Key.Left
  | TKeyCode.Right => Key.Right
  | TKeyCode.Up => Key.Up
  | TKeyCode.Down => Key.Down
  | TKeyCode.Home => Key.Home
  | TKeyCode.End => Key.End
  | TKeyCode.PageUp => Key.PageUp
  | TKeyCode.PageDown => Key.PageDown
  | TKeyCode.Delete => Key.Del
  | TKeyCode.Insert => Key.Ins
  | TKeyCode.Enter => Key.Enter
  | TKeyCode.Tab => Key.Tab
  | TKeyCode.F n => Key.from_f n
  | TKeyCode.BackTab => Key.Tab
  | TKeyCode.Char _ => Key.Tab
  | TKeyCode.Null => Key.Tab

/-- `impl From<TKeyEvent> for Event` (terminal.rs lines 56-130). The Rust
match tests the modifier set against exact constants in arm order; since
those constants are pairwise distinct, the arm order is equivalently
rendered as a dispatch on which constant (if any) the modifier set equals,
with the `Char` / `BackTab` / default arms reached only when the modifier
set is none of the six constants. -/
def Event.fromTKeyEvent (event : TKeyEvent) : Event :=
  if event.modifiers = TKeyModifiers.CONTROL then
    match event.code with
    | TKeyCode.Char c => if c = 'c' then Event.Exit else Event.CtrlChar c
    | code => Event.Ctrl (Key.fromTKeyCode code)
  else if event.modifiers = TKeyModifiers.ALT then
    match event.code with
    | TKeyCode.Char c => Event.AltChar c
    | code => Event.Alt (Key.fromTKeyCode code)
  else if event.modifiers = TKeyModifiers.SHIFT then
    match event.code with
    | TKeyCode.Char c => Event.Char c
    | code => Event.Shift (Key.fromTKeyCode code)
  else if event.modifiers = TKeyModifiers.CTRL_ALT then
    Event.CtrlAlt (Key.fromTKeyCode event.code)
  else if event.modifiers = TKeyModifiers.CTRL_SHIFT then
    Event.CtrlShift (Key.fromTKeyCode event.code)
  else if event.modifiers = TKeyModifiers.ALT_SHIFT then
    Event.AltShift (Key.fromTKeyCode event.code)
  else
    match event.code with
    | TKeyCode.Char c => Event.Char c
    | TKeyCode.BackTab => Event.Shift Key.Tab
    | code => Event.Key (Key.fromTKeyCode code)

/-- The conjunction of the three `debug_assert!` bounds checks guarding the
`RgbLowRes` arm of `impl From<theme::Color> for TColor` (terminal.rs lines
155-163): each component must be at most 5. -/
def rgb_low_res_in_bounds (r g b : Nat) : Bool :=
  decide (r ≤ 5) && decide (g ≤ 5) && decide (b ≤ 5)

/-- `impl From<theme::Color> for TColor` (terminal.rs lines 132-170): the
color mapper. The `RgbLowRes` arm computes the 6x6x6 palette index
`16 + 36r + 6g + b` (its `debug_assert!` guards are modelled separately by
`rgb_low_res_in_bounds`). -/
def TColor.fromColor : Color → TColor
  | Color.Dark BaseColor.Black => TColor.Black
  | Color.Dark BaseColor.Red => TColor.DarkRed
  | Color.Dark BaseColor.Green => TColor.DarkGreen
  | Color.Dark BaseColor.Yellow => TColor.DarkYellow
  | Color.Dark BaseColor.Blue => TColor.DarkBlue
  | Color.Dark BaseColor.Magenta => TColor.DarkMagenta
  | Color.Dark BaseColor.Cyan => TColor.DarkCyan
  | Color.Dark BaseColor.White => TColor.Grey
  | Color.Light BaseColor.Black => TColor.Grey
  | Color.Light BaseColor.Red => TColor.Red
  | Color.Light BaseColor.Green => TColor.Green
  | Color.Light BaseColor.Yellow => TColor.Yellow
  | Color.Light BaseColor.Blue => TColor.Blue
  | Color.Light BaseColor.Magenta => TColor.Magenta
  | Color.Light BaseColor.Cyan => TColor.Cyan
  | Color.Light BaseColor.White => TColor.White
  | Color.Rgb r g b => TColor.Rgb r g b
  | Color.RgbLowRes r g b => TColor.AnsiValue (16 + 36 * r + 6 * g + b)
  | Color.TerminalDefault => TColor.Reset

/-! ### The stateful Backend adapter -/

/-- One driver call issued through `terminal.act(...)` / `lock.batch(...)` /
`lock.write_all(...)`; the trace of issued actions is the observable driver
behavior of a Backend method. -/
inductive Action where
  | SetForegroundColor (c : TColor)
  | SetBackgroundColor (c : TColor)
  | MoveCursorTo (x y : Nat)
  | Write (text : String)
  | ClearTerminal
  | EnterAlternateScreen
  | EnableRawMode
  | HideCursor
  | LeaveAlternateScreen
  | ShowCursor
  | DisableRawMode
  | ResetColor
deriving DecidableEq, Repr

/-- The adapter's cross-call state: the tracked style (`current_style`,
a `Cell<theme::ColorPair>`) and the last pressed mouse button
(`last_button: Option<MouseButton>`). -/
structure BackendState where
  current_style : ColorPair
  last_button : Option MouseButton
deriving DecidableEq, Repr

namespace Backend

/-- Modelled from the spec: `theme::ColorPair::from_256colors(0, 0)` (the
toolkit's theme module, outside this unit) builds the pair for palette
index 0 on both planes, the named dark-black color; it is used only as the
initial tracked style in `init`. -/
def from_256colors_zero : ColorPair :=
  { front := Color.Dark BaseColor.Black, back := Color.Dark BaseColor.Black }

/-- `Backend::init` (terminal.rs lines 182-196), abstracted over the
success of the three driver calls it issues. The result of
`act(EnterAlternateScreen)` is discarded (no `unwrap`), so `enterAltOk`
does not influence the outcome; `EnableRawMode` and `HideCursor` are
unwrapped, so their failure panics (modelled as `none`). Returns the trace
of issued actions and the constructed state (or `none` on panic). -/
def init (enterAltOk rawOk hideOk : Bool) : List Action × Option BackendState :=
  if !rawOk then
    ([Action.EnterAlternateScreen, Action.EnableRawMode], none)
  else if !hideOk then
    ([Action.EnterAlternateScreen, Action.EnableRawMode, Action.HideCursor], none)
  else
    ([Action.EnterAlternateScreen, Action.EnableRawMode, Action.HideCursor],
      some { current_style := from_256colors_zero, last_button := none })

/-- `Backend::apply_colors` (terminal.rs lines 198-201): sets foreground
then background through the color mapper. -/
def apply_colors (colors : ColorPair) : List Action :=
  [Action.SetForegroundColor (TColor.fromColor colors.front),
   Action.SetBackgroundColor (TColor.fromColor colors.back)]

/-- `Backend::map_key` (terminal.rs lines 207-248): translates a raw driver
event, reading and updating `last_button`. The `unwrap()` on `last_button`
in the `Up`/`Drag` arms panics when no press was recorded, modelled as
`none`. -/
def map_key (st : BackendState) : TEvent → Option (Event × BackendState)
  | TEvent.Key key_event => some (Event.fromTKeyEvent key_event, st)
  | TEvent.Mouse mouse_event =>
    match mouse_event with
    | TMouseEvent.Down button x y _ =>
      let button := MouseButton.fromTMouseButton button
      some (Event.Mouse (MouseEvent.Press button) (x, y) (0, 0),
        { st with last_button := some button })
    | TMouseEvent.Up _ x y _ =>
      match st.last_button with
      | some b => some (Event.Mouse (MouseEvent.Release b) (x, y) (0, 0), st)
      | none => none
    | TMouseEvent.Drag _ x y _ =>
      match st.last_button with
      | some b => some (Event.Mouse (MouseEvent.Hold b) (x, y) (0, 0), st)
      | none => none
    | TMouseEvent.ScrollDown x y _ =>
      some (Event.Mouse MouseEvent.WheelDown (x, y) (0, 0), st)
    | TMouseEvent.ScrollUp x y _ =>
      some (Event.Mouse MouseEvent.WheelDown (x, y) (0, 0), st)
  | TEvent.Resize => some (Event.WindowResize, st)
  | TEvent.Unknown => some (Event.Unknown [], st)

/-- `Backend::finish` (terminal.rs lines 259-264), abstracted over the
success of each of its four driver calls, every one of which is
`unwrap`ped in sequence. Returns the actions actually issued and whether
finish ran to completion (`false` means it panicked midway). -/
def finish (leaveOk showOk disableOk resetOk : Bool) : List Action × Bool :=
  if !leaveOk then
    ([Action.LeaveAlternateScreen], false)
  else if !showOk then
    ([Action.LeaveAlternateScreen, Action.ShowCursor], false)
  else if !disableOk then
    ([Action.LeaveAlternateScreen, Action.ShowCursor, Action.DisableRawMode], false)
  else if !resetOk then
    ([Action.LeaveAlternateScreen, Action.ShowCursor, Action.DisableRawMode,
      Action.ResetColor], false)
  else
    ([Action.LeaveAlternateScreen, Action.ShowCursor, Action.DisableRawMode,
      Action.ResetColor], true)

/-- The `while dupes_left > 0` loop of `print_at_rep` (terminal.rs lines
296-300): writes `text` once per remaining repetition. -/
def write_dupes (text : String) : Nat → List Action
  | 0 => []
  | k + 1 => Action.Write text :: write_dupes text k

/-- `Backend::print_at_rep` (terminal.rs lines 290-302): on a positive
count, one cursor move (coordinates cast `as u16`, hence mod 2^16)
followed by one write plus `repetitions - 1` looped writes; on zero, no
driver call at all. -/
def print_at_rep (pos : Nat × Nat) (repetitions : Nat) (text : String) : List Action :=
  if repetitions > 0 then
    Action.MoveCursorTo (pos.1 % 65536) (pos.2 % 65536) :: Action.Write text ::
      write_dupes text (repetitions - 1)
  else []

/-- `Backend::clear` (terminal.rs lines 304-311): applies `color` to both
planes through `apply_colors` (not through `set_color`: the tracked
`current_style` is left untouched), then clears the terminal. -/
def clear (st : BackendState) (color : Color) : BackendState × List Action :=
  (st, apply_colors { front := color, back := color } ++ [Action.ClearTerminal])

/-- `Backend::set_color` (terminal.rs lines 313-322): reads the tracked
style; if it differs from `color`, applies `color` and updates the tracked
style; always returns the previously tracked style. Result:
(returned pair, new state, issued actions). -/
def set_color (st : BackendState) (color : ColorPair) :
    ColorPair × BackendState × List Action :=
  let current_style := st.current_style
  if current_style ≠ color then
    (current_style, { st with current_style := color }, apply_colors color)
  else
    (current_style, st, [])

end Backend

/-- Whether a mapped result carries the `WheelUp` mouse event (used to
state that the mapper never produces one). -/
def result_is_wheel_up : Option (Event × BackendState) → Bool
  | some (Event.Mouse MouseEvent.WheelUp _ _, _) => true
  | _ => false

/-! ### Helper lemmas -/

/-- The key-event mapper never produces a `Mouse` event: every arm of
`Event.fromTKeyEvent` builds a key/character/exit variant. -/
lemma fromTKeyEvent_ne_mouse (k : TKeyEvent) (me : MouseEvent) (p o : Nat × Nat) :
    Event.fromTKeyEvent k ≠ Event.Mouse me p o := by
  unfold Event.fromTKeyEvent
  repeat' split
  all_goals simp

/-- After `set_color st p`, the tracked style equals `p` (it is updated in
the differing branch and was already `p` in the other). -/
lemma set_color_style (st : BackendState) (p : ColorPair) :
    (Backend.set_color st p).2.1.current_style = p := by
  simp only [Backend.set_color]
  split
  · rfl
  · next h => exact not_not.mp h

/-- `set_color` on a pair equal to the tracked style issues nothing and
leaves the state unchanged. -/
lemma set_color_same (st : BackendState) (p : ColorPair) (h : st.current_style = p) :
    Backend.set_color st p = (st.current_style, st, []) := by
  simp only [Backend.set_color]
  rw [if_neg (by simp [h])]

/-- `set_color` on a pair differing from the tracked style applies the
colors and updates the tracked style. -/
lemma set_color_diff (st : BackendState) (p : ColorPair) (h : st.current_style ≠ p) :
    Backend.set_color st p =
      (st.current_style, { st with current_style := p }, Backend.apply_colors p) := by
  simp only [Backend.set_color]
  rw [if_pos h]

/-- The `while` loop body of `print_at_rep` writes `text` exactly `k`
times. -/
lemma write_dupes_eq_replicate (text : String) (k : Nat) :
    Backend.write_dupes text k = List.replicate k (Action.Write text) := by
  induction k with
  | zero => rfl
  | succ n ih => simp [Backend.write_dupes, ih, List.replicate_succ]

/-! ### Claim theorems -/

/-- C1: for every character `c`, a key event with no modifiers maps to
`Char(c)`; with only Control it maps to `CtrlChar(c)` except `'c'`, which
maps to `Exit`; with only Alt to `AltChar(c)`; with only Shift to
`Char(c)`. -/
theorem C1_char_modifier_mapping (c : Char) :
    Event.fromTKeyEvent ⟨TKeyModifiers.NONE, TKeyCode.Char c⟩ = Event.Char c ∧
    Event.fromTKeyEvent ⟨TKeyModifiers.CONTROL, TKeyCode.Char c⟩ =
      (if c = 'c' then Event.Exit else Event.CtrlChar c) ∧
    Event.fromTKeyEvent ⟨TKeyModifiers.ALT, TKeyCode.Char c⟩ = Event.AltChar c ∧
    Event.fromTKeyEvent ⟨TKeyModifiers.SHIFT, TKeyCode.Char c⟩ = Event.Char c := by
  refine ⟨?_, ?_, ?_, ?_⟩ <;>
    simp [Event.fromTKeyEvent, TKeyModifiers.NONE, TKeyModifiers.CONTROL,
      TKeyModifiers.ALT, TKeyModifiers.SHIFT, TKeyModifiers.CTRL_ALT,
      TKeyModifiers.CTRL_SHIFT, TKeyModifiers.ALT_SHIFT]

/-- C2: a mouse press of `b` records it as last-pressed and yields
`Press`; with a recorded button `btn`, a drag yields `Hold(btn)` and a
release yields `Release(btn)`, at the raw (x, y) with zero offset; a
release or drag with no recorded press maps to no event at all (the
`unwrap` panics, modelled as `none`). -/
theorem C2_mouse_press_drag_release (st : BackendState) (b bIgnored : TMouseButton)
    (btn : MouseButton) (x y : Nat) (m : TKeyModifiers) :
    Backend.map_key st (TEvent.Mouse (TMouseEvent.Down b x y m)) =
      some (Event.Mouse (MouseEvent.Press (MouseButton.fromTMouseButton b)) (x, y) (0, 0),
        { st with last_button := some (MouseButton.fromTMouseButton b) }) ∧
    Backend.map_key { st with last_button := some btn }
        (TEvent.Mouse (TMouseEvent.Drag bIgnored x y m)) =
      some (Event.Mouse (MouseEvent.Hold btn) (x, y) (0, 0),
        { st with last_button := some btn }) ∧
    Backend.map_key { st with last_button := some btn }
        (TEvent.Mouse (TMouseEvent.Up bIgnored x y m)) =
      some (Event.Mouse (MouseEvent.Release btn) (x, y) (0, 0),
        { st with last_button := some btn }) ∧
    Backend.map_key { st with last_button := none }
        (TEvent.Mouse (TMouseEvent.Up bIgnored x y m)) = none ∧
    Backend.map_key { st with last_button := none }
        (TEvent.Mouse (TMouseEvent.Drag bIgnored x y m)) = none := by
  refine ⟨?_, ?_, ?_, ?_, ?_⟩ <;> simp [Backend.map_key]

/-- C3 counterexample: a BackTab key event reporting exactly the Control
modifier is captured by the single-Control arm first and maps to
`Ctrl(Tab)`, not to `Shift(Tab)`, refuting "regardless of which modifier
bits the event reports". -/
theorem C3_backtab_counterexample :
    Event.fromTKeyEvent ⟨TKeyModifiers.CONTROL, TKeyCode.BackTab⟩ = Event.Ctrl Key.Tab ∧
    decide (Event.fromTKeyEvent ⟨TKeyModifiers.CONTROL, TKeyCode.BackTab⟩
      = Event.Shift Key.Tab) = false := by
  decide

/-- C3 amended: a BackTab key event maps to `Shift(Tab)` whenever its
modifier set is none of the five earlier-matching modifier constants
(Control, Alt, Control+Alt, Control+Shift, Alt+Shift); in particular with
no modifiers, and also with exactly Shift (through the Shift arm, since
the symbol table sends BackTab to Tab). -/
theorem C3_backtab_amended (m : TKeyModifiers)
    (h1 : m ≠ TKeyModifiers.CONTROL) (h2 : m ≠ TKeyModifiers.ALT)
    (h3 : m ≠ TKeyModifiers.CTRL_ALT) (h4 : m ≠ TKeyModifiers.CTRL_SHIFT)
    (h5 : m ≠ TKeyModifiers.ALT_SHIFT) :
    Event.fromTKeyEvent ⟨m, TKeyCode.BackTab⟩ = Event.Shift Key.Tab := by
  obtain ⟨s, c, a⟩ := m
  cases s <;> cases c <;> cases a <;>
    simp_all [Event.fromTKeyEvent, Key.fromTKeyCode, TKeyModifiers.NONE,
      TKeyModifiers.CONTROL, TKeyModifiers.ALT, TKeyModifiers.SHIFT,
      TKeyModifiers.CTRL_ALT, TKeyModifiers.CTRL_SHIFT, TKeyModifiers.ALT_SHIFT]

/-- C3 amended witness: with the empty modifier set, BackTab maps to
`Shift(Tab)`. -/
theorem C3_backtab_amended_witness :
    Event.fromTKeyEvent ⟨TKeyModifiers.NONE, TKeyCode.BackTab⟩ = Event.Shift Key.Tab :=
  C3_backtab_amended TKeyModifiers.NONE (by decide) (by decide) (by decide)
    (by decide) (by decide)

/-- C4: `set_color` applied twice with the same pair issues no driver call
the second time and still returns that pair; `set_color` always returns
the previously tracked pair; and after `set_color p1`, a `set_color p2`
with `p1 ≠ p2` returns `p1`, tracks `p2`, and applies `p2`. -/
theorem C4_set_color_dedup (st : BackendState) (p p1 p2 : ColorPair) (h : p1 ≠ p2) :
    (Backend.set_color (Backend.set_color st p).2.1 p).2.2 = [] ∧
    (Backend.set_color (Backend.set_color st p).2.1 p).1 = p ∧
    (Backend.set_color st p).1 = st.current_style ∧
    (Backend.set_color (Backend.set_color st p1).2.1 p2).1 = p1 ∧
    (Backend.set_color (Backend.set_color st p1).2.1 p2).2.1.current_style = p2 ∧
    (Backend.set_color (Backend.set_color st p1).2.1 p2).2.2 =
      Backend.apply_colors p2 := by
  have h1 := set_color_style st p
  have h2 := set_color_same (Backend.set_color st p).2.1 p h1
  have h3 := set_color_style st p1
  have h4 := set_color_diff (Backend.set_color st p1).2.1 p2 (by rw [h3]; exact h)
  refine ⟨?_, ?_, ?_, ?_, ?_, ?_⟩
  · rw [h2]
  · rw [h2, h1]
  · simp only [Backend.set_color]
    split <;> rfl
  · rw [h4, h3]
  · rw [h4]
  · rw [h4]

/-- C4 witness: concrete run with tracked style dark black, setting the
same pair twice then a different pair. -/
theorem C4_set_color_dedup_witness :
    (Backend.set_color
      (Backend.set_color
        ⟨⟨Color.Dark BaseColor.Black, Color.Dark BaseColor.Black⟩, none⟩
        ⟨Color.Dark BaseColor.Red, Color.Dark BaseColor.Blue⟩).2.1
      ⟨Color.Dark BaseColor.Red, Color.Dark BaseColor.Blue⟩).2.2 = [] :=
  (C4_set_color_dedup
    ⟨⟨Color.Dark BaseColor.Black, Color.Dark BaseColor.Black⟩, none⟩
    ⟨Color.Dark BaseColor.Red, Color.Dark BaseColor.Blue⟩
    ⟨Color.Dark BaseColor.Red, Color.Dark BaseColor.Blue⟩
    ⟨Color.Dark BaseColor.Green, Color.Dark BaseColor.Cyan⟩ (by decide)).1

/-- C5: for components at most 5, `RgbLowRes(r,g,b)` maps to the extended
palette index `16 + 36r + 6g + b`, which lies in [16, 231]; any component
above 5 makes the `debug_assert!` bounds check fail (contract violation,
not a recoverable error). -/
theorem C5_rgb_low_res_palette (r g b : Nat) :
    (r ≤ 5 → g ≤ 5 → b ≤ 5 →
      TColor.fromColor (Color.RgbLowRes r g b) =
        TColor.AnsiValue (16 + 36 * r + 6 * g + b) ∧
      16 ≤ 16 + 36 * r + 6 * g + b ∧ 16 + 36 * r + 6 * g + b ≤ 231) ∧
    (¬ (r ≤ 5 ∧ g ≤ 5 ∧ b ≤ 5) → rgb_low_res_in_bounds r g b = false) := by
  constructor
  · intro hr hg hb
    exact ⟨rfl, by omega, by omega⟩
  · intro h
    simp only [rgb_low_res_in_bounds, Bool.and_eq_false_iff,
      decide_eq_false_iff_not]
    tauto

/-- C5 witness: `RgbLowRes(1,2,3)` maps to palette index 67, and the
bounds check rejects `r = 6`. -/
theorem C5_rgb_low_res_witness :
    TColor.fromColor (Color.RgbLowRes 1 2 3) =
      TColor.AnsiValue (16 + 36 * 1 + 6 * 2 + 3) ∧
    rgb_low_res_in_bounds 6 0 0 = false :=
  ⟨((C5_rgb_low_res_palette 1 2 3).1 (by decide) (by decide) (by decide)).1,
   (C5_rgb_low_res_palette 6 0 0).2 (by decide)⟩

/-- C6: `print_at_rep` with count 0 issues no driver call; with count
`n > 0` it issues exactly one cursor move to the (u16-cast) position
followed by `n` contiguous writes of `text` and nothing else. -/
theorem C6_print_at_rep_trace (pos : Nat × Nat) (text : String) (n : Nat) (h : 0 < n) :
    Backend.print_at_rep pos 0 text = [] ∧
    Backend.print_at_rep pos n text =
      Action.MoveCursorTo (pos.1 % 65536) (pos.2 % 65536) ::
        List.replicate n (Action.Write text) := by
  constructor
  · rfl
  · obtain ⟨k, rfl⟩ : ∃ k, n = k + 1 := ⟨n - 1, by omega⟩
    simp [Backend.print_at_rep, write_dupes_eq_replicate, List.replicate_succ]

/-- C6 witness: three repetitions of "ab" produce one cursor move followed
by three writes of "ab". -/
theorem C6_print_at_rep_witness :
    Backend.print_at_rep (1, 2) 3 "ab" =
      Action.MoveCursorTo (1 % 65536) (2 % 65536) ::
        List.replicate 3 (Action.Write "ab") :=
  (C6_print_at_rep_trace (1, 2) "ab" 3 (by decide)).2

/-- C7: for every non-character key code, Control+Alt maps to `CtrlAlt`,
Control+Shift to `CtrlShift`, Alt+Shift to `AltShift` of the mapped key
symbol, and the Control+Alt result is never a single-modifier `Ctrl` or
`Alt` event. -/
theorem C7_combined_modifier_precedence (code : TKeyCode)
    (h : ∀ c : Char, code ≠ TKeyCode.Char c) :
    Event.fromTKeyEvent ⟨TKeyModifiers.CTRL_ALT, code⟩ =
      Event.CtrlAlt (Key.fromTKeyCode code) ∧
    Event.fromTKeyEvent ⟨TKeyModifiers.CTRL_SHIFT, code⟩ =
      Event.CtrlShift (Key.fromTKeyCode code) ∧
    Event.fromTKeyEvent ⟨TKeyModifiers.ALT_SHIFT, code⟩ =
      Event.AltShift (Key.fromTKeyCode code) ∧
    (∀ k : Key, Event.fromTKeyEvent ⟨TKeyModifiers.CTRL_ALT, code⟩ ≠ Event.Ctrl k ∧
      Event.fromTKeyEvent ⟨TKeyModifiers.CTRL_ALT, code⟩ ≠ Event.Alt k) := by
  have e1 : Event.fromTKeyEvent ⟨TKeyModifiers.CTRL_ALT, code⟩ =
      Event.CtrlAlt (Key.fromTKeyCode code) := by
    simp [Event.fromTKeyEvent, TKeyModifiers.CONTROL, TKeyModifiers.ALT,
      TKeyModifiers.SHIFT, TKeyModifiers.CTRL_ALT]
  refine ⟨e1, ?_, ?_, ?_⟩
  · simp [Event.fromTKeyEvent, TKeyModifiers.CONTROL, TKeyModifiers.ALT,
      TKeyModifiers.SHIFT, TKeyModifiers.CTRL_ALT, TKeyModifiers.CTRL_SHIFT]
  · simp [Event.fromTKeyEvent, TKeyModifiers.CONTROL, TKeyModifiers.ALT,
      TKeyModifiers.SHIFT, TKeyModifiers.CTRL_ALT, TKeyModifiers.CTRL_SHIFT,
      TKeyModifiers.ALT_SHIFT]
  · intro k
    rw [e1]
    exact ⟨fun he => Event.noConfusion he, fun he => Event.noConfusion he⟩

/-- C7 witness: the Escape key code with Control+Alt maps to
`CtrlAlt(Esc)`. -/
theorem C7_combined_modifier_witness :
    Event.fromTKeyEvent ⟨TKeyModifiers.CTRL_ALT, TKeyCode.Esc⟩ =
      Event.CtrlAlt (Key.fromTKeyCode TKeyCode.Esc) :=
  (C7_combined_modifier_precedence TKeyCode.Esc
    (fun _ hc => TKeyCode.noConfusion hc)).1

/-- C8: both scroll transitions map to `WheelDown` (same position, zero
offset, state untouched), and no raw event whatsoever maps to a `WheelUp`
mouse event. -/
theorem C8_scroll_maps_to_wheel_down (st : BackendState) (x y : Nat)
    (m : TKeyModifiers) (ev : TEvent) :
    Backend.map_key st (TEvent.Mouse (TMouseEvent.ScrollDown x y m)) =
      some (Event.Mouse MouseEvent.WheelDown (x, y) (0, 0), st) ∧
    Backend.map_key st (TEvent.Mouse (TMouseEvent.ScrollUp x y m)) =
      some (Event.Mouse MouseEvent.WheelDown (x, y) (0, 0), st) ∧
    result_is_wheel_up (Backend.map_key st ev) = false := by
  refine ⟨rfl, rfl, ?_⟩
  cases ev with
  | Key k =>
    simp only [Backend.map_key]
    cases hE : Event.fromTKeyEvent k with
    | Mouse me p o => exact absurd hE (fromTKeyEvent_ne_mouse k me p o)
    | _ => rfl
  | Mouse me =>
    cases me <;> cases hb : st.last_button <;>
      simp_all [Backend.map_key, result_is_wheel_up]
  | Resize => rfl
  | Unknown => rfl

/-- C9 counterexample: when leaving the alternate screen fails, `finish`
panics immediately (the `unwrap`), having issued only the
leave-alternate-screen call: the cursor is not shown, raw mode is not
disabled and color is not reset. -/
theorem C9_finish_counterexample :
    Backend.finish false true true true = ([Action.LeaveAlternateScreen], false) := rfl

/-- C9 amended: a failure to enter the alternate screen during `init` is
ignored (init still issues all three calls and constructs the backend);
but a failure to leave the alternate screen during `finish` panics and
prevents the remaining steps, which only run when the leave succeeds. -/
theorem C9_alt_screen_amended (enterAltOk showOk disableOk resetOk : Bool) :
    ((Backend.init enterAltOk true true).2).isSome = true ∧
    (Backend.init enterAltOk true true).1 =
      [Action.EnterAlternateScreen, Action.EnableRawMode, Action.HideCursor] ∧
    Backend.finish false showOk disableOk resetOk =
      ([Action.LeaveAlternateScreen], false) ∧
    Backend.finish true true true true =
      ([Action.LeaveAlternateScreen, Action.ShowCursor, Action.DisableRawMode,
        Action.ResetColor], true) :=
  ⟨rfl, rfl, rfl, rfl⟩

/-- C10: `clear` leaves the tracked `current_style` untouched while
setting both driver planes to the clear color, so a following `set_color`
with the previously tracked pair is deduplicated away (no driver call)
even though the driver's actual colors are now the clear color. -/
theorem C10_clear_bypasses_tracked_style (st : BackendState) (c : Color) :
    (Backend.clear st c).1.current_style = st.current_style ∧
    (Backend.clear st c).2 =
      [Action.SetForegroundColor (TColor.fromColor c),
       Action.SetBackgroundColor (TColor.fromColor c), Action.ClearTerminal] ∧
    Backend.set_color (Backend.clear st c).1 st.current_style =
      (st.current_style, (Backend.clear st c).1, []) := by
  refine ⟨rfl, rfl, ?_⟩
  exact set_color_same _ _ rfl

end Cursive
